import Mathlib

/-!
# Verification of the veggiekarte data check (`datacheck/datacheck.py`)

Shallow embedding of the rule validation engine (`check_data`), the URL
health cache (`is_url_ok`, `is_url_format_valid`) and the run orchestration
(`main`: cache pruning and rewriting) of `datacheck/datacheck.py`, together
with theorems settling the specification claims.

Modelling conventions:
* Python dicts of tags are association lists `List (String × String)`
  (keys unique in practice; lookups take the first match, as dicts would).
* Calendar dates are ordinal day numbers (`Int`); `datetime` subtraction
  `(today - date).days` becomes integer subtraction, exact for pure dates.
* The network is a deterministic environment function
  `net : String → ProbeOutcome`; each performed probe is logged so that
  "no network call happens" is a statement about the returned log.
* Latitude/longitude values are modelled as `Int` (their numeric value is
  irrelevant to every claim; only presence/absence matters).  A Python value
  of `None` is `Option.none`.
* Python's function-local variables `lat`/`lon` leak across loop
  iterations; they are modelled as explicit state `Option (Option Int)`
  (`none` = unbound name, `some v` = bound to `v`, where `v = none` is
  Python `None`).  Reading an unbound name raises `NameError`;
  calling `.get` on `None` raises `AttributeError`.
* `print` calls and file I/O are external collaborators and not modelled;
  `main`'s cache pruning and final cache rewrite are modelled in `runMain`.
-/

/-- `pat` is a prefix of `l` (structural, kernel-evaluable). -/
def isPrefixList : List Char → List Char → Bool
  | [], _ => true
  | _ :: _, [] => false
  | a :: as, b :: bs => a == b && isPrefixList as bs

/-- `pat` occurs as a contiguous sublist of `l` (an empty pattern always
occurs, as with Python's `in`). -/
def isInfixList (pat : List Char) : List Char → Bool
  | [] => pat.isEmpty
  | c :: t => isPrefixList pat (c :: t) || isInfixList pat t

/-- Python `pat in s` substring test. -/
def strContains (s pat : String) : Bool :=
  isInfixList pat.data s.data

/-- Python `s.startswith(pre)`. -/
def strStartsWith (s pre : String) : Bool :=
  isPrefixList pre.data s.data

/-! ## `urlparse` fragment (CPython `urllib.parse`), scheme and netloc

`is_url_format_valid` only inspects `result.scheme` and `result.netloc`,
so we embed exactly the scheme-splitting and netloc-splitting steps of
CPython's `urlsplit`, including the `ValueError` raised on unbalanced
IPv6 brackets (which the source's bare `except` turns into `False`). -/

/-- Characters allowed in a URL scheme after the first: ASCII letters,
digits and `+`, `-`, `.` (CPython `scheme_chars`). -/
def scheme_chars (c : Char) : Bool :=
  c.isAlphanum || c == '+' || c == '-' || c == '.'

/-- Split a character list at the first `':'`: `some (before, after)`,
or `none` when there is no colon. -/
def splitColon : List Char → Option (List Char × List Char)
  | [] => none
  | c :: t =>
    if c == ':' then some ([], t)
    else
      match splitColon t with
      | some (a, b) => some (c :: a, b)
      | none => none

/-- CPython `urlsplit` scheme handling: if the text before the first `':'`
is non-empty, starts with an ASCII letter and consists of scheme
characters, it is the (lowercased) scheme and the remainder is the rest of
the URL; otherwise the scheme is empty and the whole URL is kept. -/
def splitScheme (url : String) : String × String :=
  match splitColon url.data with
  | some (pre, post) =>
    if !pre.isEmpty && (pre.headD ' ').isAlpha && pre.all scheme_chars then
      (String.mk (pre.map Char.toLower), String.mk post)
    else
      ("", url)
  | none => ("", url)

/-- CPython `urlsplit` netloc handling on the post-scheme remainder: if it
starts with `//`, the netloc runs up to the first `/`, `?` or `#`;
unbalanced `[`/`]` raises `ValueError` (modelled as `none`).  Without
`//` the netloc is empty. -/
def pyNetloc (rest : String) : Option String :=
  if strStartsWith rest "//" then
    let nl := (rest.data.drop 2).takeWhile
      (fun c => !(c == '/') && !(c == '?') && !(c == '#'))
    if (nl.contains '[') == (nl.contains ']') then some (String.mk nl) else none
  else
    some ""

/-- `is_url_format_valid(url)`: parse the URL and require both a scheme and
a netloc (`all([result.scheme, result.netloc])`, truthiness = non-empty);
any parse exception yields `False`. -/
def is_url_format_valid (url : String) : Bool :=
  let (scheme, rest) := splitScheme url
  match pyNetloc rest with
  | none => false
  | some netloc => scheme != "" && netloc != ""

/-! ## URL health cache (`is_url_ok`) -/

/-- One entry of `url_data` (and also the shape of the `result` dict built
by `is_url_ok`): `{date, isOk, text}` with the date as an ordinal day. -/
structure CacheEntry where
  date : Int
  isOk : Bool
  text : String
  deriving Repr, DecidableEq

/-- Outcome of one `requests.get` probe: either an HTTP response with a
status code, or a transport-level exception with its class name. -/
inductive ProbeOutcome where
  | response (status : Nat)
  | exception (name : String)
  deriving Repr, DecidableEq

/-- The persisted URL cache `url_data`: a map from URL to entry. -/
abbrev UrlData := List (String × CacheEntry)

/-- `is_url_ok(url)`: look the URL up in `url_data`; on a hit return the
stored verdict (no probe); on a miss, check the format, and if valid
perform one probe and classify the outcome.  Returns the `result` dict
together with the list of URLs actually probed (`[]` or `[url]`).

Note: the source reads `url_data` but never writes `url_data[url] = result`
back, so the cache is an immutable input here — there is no store step to
embed. -/
def is_url_ok (today : Int) (url_data : UrlData) (net : String → ProbeOutcome)
    (url : String) : CacheEntry × List String :=
  match url_data.lookup url with
  | some e => ({ date := today, isOk := e.isOk, text := e.text }, [])
  | none =>
    if is_url_format_valid url then
      match net url with
      | .exception name =>
        ({ date := today, isOk := false, text := "Exception: " ++ name }, [url])
      | .response status =>
        if status < 400 then
          ({ date := today, isOk := true, text := "OK" }, [url])
        else if status == 403 then
          ({ date := today, isOk := true,
             text := "Can't do full check: HTTP response: Forbidden" }, [url])
        else if status == 429 then
          ({ date := today, isOk := true,
             text := "Can't do full check: HTTP response: Too Many Requests" }, [url])
        else
          ({ date := today, isOk := false,
             text := "HTTP response code " ++ toString status }, [url])
    else
      ({ date := today, isOk := false, text := "No valid URL format" }, [])

/-! ## Cache pruning (`main`, lines 318–326) -/

/-- The pruning loop of `main`: delete every entry with
`(today - entry.date).days > 28`. -/
def pruneCache (today : Int) (url_data : UrlData) : UrlData :=
  url_data.filter (fun p => !decide (today - p.2.date > 28))

/-! ## Data model of the rule validation engine (`check_data`) -/

/-- The `center` sub-object of a way/relation element (a dict whose `lat`
and `lon` keys may be absent: `.get(key, None)`). -/
structure Center where
  lat : Option Int := none
  lon : Option Int := none
  deriving Repr, DecidableEq

/-- One OSM element of the input `data["elements"]`.  `lat`/`lon` model
`osm_element.get("lat"/"lon", None)` for nodes; `center` models the
optional `center` sub-object for ways/relations. -/
structure OsmElement where
  id : Int
  osmType : String
  lat : Option Int := none
  lon : Option Int := none
  center : Option Center := none
  tags : List (String × String) := []
  deriving Repr, DecidableEq

/-- The serialized `properties` object of one report feature, after the
final `issue_number` computation and the deletion of empty lists
(`none` = key absent from the serialized form). -/
structure Props where
  id : Int
  osmType : String
  name : String
  diet_vegan : Option String
  undefined : Option (List String)
  issues : Option (List String)
  issue_number : Nat
  deriving Repr, DecidableEq

/-- One report feature: `geometry.coordinates = [lon, lat]` (either may be
Python `None`) plus the `properties` object. -/
structure Feature where
  coordinates : Option Int × Option Int
  props : Props
  deriving Repr, DecidableEq

/-- The working `properties` object while rules are still appending, with
`undefined` and `issues` as plain lists. -/
structure WorkProps where
  id : Int
  osmType : String
  name : String
  diet_vegan : Option String
  undefined : List String
  issues : List String
  deriving Repr, DecidableEq

/-- Errors the reference implementation can raise while validating one
element: `AttributeError` from `None.get(...)` (missing `center`),
`NameError` from reading a never-assigned local (`lat`/`lon`). -/
inductive CheckError where
  | attributeError
  | nameError
  deriving Repr, DecidableEq

/-- External collaborators fixed for a run: the network and the
`email_validator` capability (`none` = address valid, `some msg` = the
`EmailNotValidError` explanation text). -/
structure Ctx where
  net : String → ProbeOutcome
  emailValid : String → Option String

/-- The state of the Python locals `lat`, `lon` across loop iterations:
`none` = name unbound so far, `some v` = bound to `v` (where `v = none` is
Python `None`). -/
abbrev VarState := Option (Option Int) × Option (Option Int)

/-- Lines 125–132: assign `lat`/`lon` for a node from the element itself,
for a way/relation from its `center` (raising `AttributeError` when
`center` is `None`), and leave them untouched for any other type. -/
def resolveCoords (st : VarState) (e : OsmElement) : Except CheckError VarState :=
  if e.osmType == "node" then
    .ok (some e.lat, some e.lon)
  else if e.osmType == "way" || e.osmType == "relation" then
    match e.center with
    | none => .error .attributeError
    | some c => .ok (some c.lat, some c.lon)
  else
    .ok st

/-- Reading a local variable: `NameError` when it was never assigned. -/
def readVar : Option (Option Int) → Except CheckError (Option Int)
  | none => .error .nameError
  | some v => .ok v

/-- `name.replace('"', '”')` — the pattern is the single character `"`,
so the replacement is a character-wise map. -/
def replaceQuotes : List Char → List Char
  | [] => []
  | c :: t => (if c == '"' then '”' else c) :: replaceQuotes t

/-- Lines 139–156: name resolution (`name` → `name:en` → vending machine →
`"<type> <id>"` plus `undefined += ["name"]`), then the double-quote
replacement applied to the final value. -/
def resolveName (e : OsmElement) : String × List String :=
  let (name, undef) :=
    match e.tags.lookup "name" with
    | some n => (n, [])
    | none =>
      match e.tags.lookup "name:en" with
      | some n => (n, [])
      | none =>
        if ((e.tags.lookup "amenity").getD "") == "vending_machine" then
          ("vending machine", [])
        else
          (e.osmType ++ " " ++ toString e.id, ["name"])
  (String.mk (replaceQuotes name.data), undef)

/-- Lines 159–167: diet tags.  Returns the stored `diet_vegan` property,
the `undefined` additions and the `issues` additions. -/
def dietCheck (tags : List (String × String)) :
    Option String × List String × List String :=
  match tags.lookup "diet:vegan" with
  | some v =>
    (some v, [],
      if v != "only" && v != "yes" && v != "limited" && v != "no" then
        ["'diet:vegan' has an unusual value: " ++ v]
      else [])
  | none => (none, ["diet:vegan"], [])

/-- Lines 170–174: cuisine (`undefined` additions). -/
def cuisineRule (tags : List (String × String)) : List String :=
  if !(tags.lookup "cuisine").isSome && !(tags.lookup "shop").isSome then
    if ((tags.lookup "amenity").getD "") != "cafe"
        && ((tags.lookup "amenity").getD "") != "ice_cream"
        && ((tags.lookup "amenity").getD "") != "bar" then
      ["cuisine"]
    else []
  else []

/-- Lines 177–189: address completeness (`undefined` additions). -/
def addressRule (tags : List (String × String)) : List String :=
  (if !(tags.lookup "addr:street").isSome then ["addr:street"] else [])
    ++ (if !(tags.lookup "addr:housenumber").isSome then ["addr:housenumber"] else [])
    ++ (if !(tags.lookup "addr:city").isSome && !(tags.lookup "addr:suburb").isSome then
          ["addr:city/suburb"] else [])
    ++ (if !(tags.lookup "addr:postcode").isSome then ["addr:postcode"] else [])

/-- The final value of the Python local `website` after lines 192–199:
`tags["website"]` when present (the second `if` overwrites), else
`tags["contact:website"]`, else the sentinel `'undefined'`. -/
def resolvedWebsite (tags : List (String × String)) : String :=
  match tags.lookup "website" with
  | some u => u
  | none =>
    match tags.lookup "contact:website" with
    | some u => u
    | none => "undefined"

/-- Lines 191–211: the website rule.  Both `contact:website` and `website`
are health-checked when present (each unreachable verdict appends its own
issue); the facebook/instagram substring suggestions inspect the final
value of the `website` variable; both tags present appends the duplicate
warning.  Returns (`issues` additions, probed URLs). -/
def websiteRule (today : Int) (url_data : UrlData) (net : String → ProbeOutcome)
    (tags : List (String × String)) : List String × List String :=
  let (i1, p1) :=
    match tags.lookup "contact:website" with
    | some u =>
      let (r, pr) := is_url_ok today url_data net u
      (if r.isOk == false then ["'contact:website' URI invalid"] else [], pr)
    | none => ([], [])
  let (i2, p2) :=
    match tags.lookup "website" with
    | some u =>
      let (r, pr) := is_url_ok today url_data net u
      (if r.isOk == false then ["'website' URI invalid"] else [], pr)
    | none => ([], [])
  let website := resolvedWebsite tags
  let i3 :=
    if strContains website "facebook" then
      ["'facebook' URI as website -> change to 'contact:facebook'"] else []
  let i4 :=
    if strContains website "instagram" then
      ["'instagram' URI as website -> change to 'contact:instagram'"] else []
  let i5 :=
    if (tags.lookup "contact:website").isSome && (tags.lookup "website").isSome then
      ["'website' and 'contact:website' defined -> remove one"] else []
  (i1 ++ i2 ++ i3 ++ i4 ++ i5, p1 ++ p2)

/-- Lines 214–227: the facebook contact rule. -/
def facebookRule (today : Int) (url_data : UrlData) (net : String → ProbeOutcome)
    (tags : List (String × String)) : List String × List String :=
  let (i1, p1) :=
    match tags.lookup "contact:facebook" with
    | some cf =>
      if strStartsWith cf "http://" then
        (["'contact:facebook' starts with 'http' instead of 'https'"], [])
      else if !strStartsWith cf "https://www.facebook.com/" then
        (["'contact:facebook' does not starts with 'https://www.facebook.com/'"], [])
      else
        let (r, pr) := is_url_ok today url_data net cf
        (if r.isOk == false then ["'contact:facebook' URI invalid"] else [], pr)
    | none => ([], [])
  let i2 :=
    if (tags.lookup "facebook").isSome then
      ["old tag: 'facebook' -> change to 'contact:facebook'"] else []
  (i1 ++ i2, p1)

/-- Lines 230–243: the instagram contact rule. -/
def instagramRule (today : Int) (url_data : UrlData) (net : String → ProbeOutcome)
    (tags : List (String × String)) : List String × List String :=
  let (i1, p1) :=
    match tags.lookup "contact:instagram" with
    | some ci =>
      if strStartsWith ci "http://" then
        (["'contact:instagram' starts with 'http' instead of 'https'"], [])
      else if !strStartsWith ci "https://www.instagram.com/" then
        (["'contact:instagram' does not starts with 'https://www.instagram.com/'"], [])
      else
        let (r, pr) := is_url_ok today url_data net ci
        (if r.isOk == false then ["'contact:instagram' URI invalid"] else [], pr)
    | none => ([], [])
  let i2 :=
    if (tags.lookup "instagram").isSome then ["old tag 'instagram'"] else []
  (i1 ++ i2, p1)

/-- Lines 246–258: email rule (`contact:email` preferred over `email`;
validation via the external validator; duplicate warning). -/
def emailRule (emailValid : String → Option String)
    (tags : List (String × String)) : List String :=
  let email :=
    match tags.lookup "contact:email" with
    | some v => some v
    | none => tags.lookup "email"
  let i1 :=
    match email with
    | some v =>
      match emailValid v with
      | some err => ["E-Mail is not valid: " ++ err]
      | none => []
    | none => []
  let i2 :=
    if (tags.lookup "contact:email").isSome && (tags.lookup "email").isSome then
      ["'email' and 'contact:email' defined -> remove one"] else []
  i1 ++ i2

/-- Lines 261–273: phone rule. -/
def phoneRule (tags : List (String × String)) : List String :=
  (match tags.lookup "contact:phone" with
   | some p =>
     if !strStartsWith p "+" then
       ["'contact:phone' has no international format like '+44 20 84527891'"]
     else []
   | none => [])
  ++ (match tags.lookup "phone" with
      | some p =>
        if !strStartsWith p "+" then
          ["'phone' has no international format like '+44 20 84527891'"]
        else []
      | none => [])
  ++ (if (tags.lookup "contact:phone").isSome && (tags.lookup "phone").isSome then
        ["'phone' and 'contact:phone' defined -> remove one"] else [])

/-- Lines 276–286: opening hours (covid override unless `same`/`restricted`,
else the normal tag, else missing; line-break issue on the resolved value).
Returns (`undefined` additions, `issues` additions). -/
def openingHoursRule (tags : List (String × String)) : List String × List String :=
  let fallback : String × List String :=
    match tags.lookup "opening_hours" with
    | some o => (o, [])
    | none => ("undefined", ["opening_hours"])
  let (oh, undef) :=
    match tags.lookup "opening_hours:covid19" with
    | some v => if v != "same" && v != "restricted" then (v, []) else fallback
    | none => fallback
  (undef,
    if strContains oh "\n" || strContains oh "\r" then
      ["There is a line break in 'opening_hours' -> remove"]
    else [])

/-- Lines 289–291: the disused heuristic — substring match against the
concatenation of all tag keys (`"".join(tags)` iterates over dict keys). -/
def disusedRule (tags : List (String × String)) : List String :=
  if strContains (String.join (tags.map Prod.fst)) "disused" then
    ["There is a 'disused' tag: Check whether this tag is correct. If so, please remove the diet tags."]
  else []

/-- Lines 294–300: compute `issue_number = len(issues) + len(undefined)`,
then delete whichever of the two lists is empty from the serialized form. -/
def finalizeProps (w : WorkProps) : Props :=
  { id := w.id
    osmType := w.osmType
    name := w.name
    diet_vegan := w.diet_vegan
    issue_number := w.issues.length + w.undefined.length
    issues := if w.issues.length == 0 then none else some w.issues
    undefined := if w.undefined.length == 0 then none else some w.undefined }

/-- Lines 139–295 without the gate: the full `properties` object assembled
for one element (name and diet handling, then all gated rules in source
order, `undefined` and `issues` collected in append order), together with
the probed URLs.  The pre-gate name/diet fields are computed here as well:
they are observable only when the feature is appended, which happens
exactly in the gate-true branch of `checkElement`. -/
def buildWorkProps (ctx : Ctx) (today : Int) (url_data : UrlData)
    (e : OsmElement) : WorkProps × List String :=
  let tags := e.tags
  let (name, u1) := resolveName e
  let (dv, u2, i1) := dietCheck tags
  let u3 := cuisineRule tags
  let u4 := addressRule tags
  let (i2, p1) := websiteRule today url_data ctx.net tags
  let (i3, p2) := facebookRule today url_data ctx.net tags
  let (i4, p3) := instagramRule today url_data ctx.net tags
  let i5 := emailRule ctx.emailValid tags
  let i6 := phoneRule tags
  let (u5, i7) := openingHoursRule tags
  let i8 := disusedRule tags
  ({ id := e.id
     osmType := e.osmType
     name := name
     diet_vegan := dv
     undefined := u1 ++ u2 ++ u3 ++ u4 ++ u5
     issues := i1 ++ i2 ++ i3 ++ i4 ++ i5 ++ i6 ++ i7 ++ i8 },
   p1 ++ p2 ++ p3)

/-- Lines 110–304, one loop iteration: resolve coordinates (possibly
raising), build the geometry (reading the possibly-unbound locals), and —
unless `tags.get("diet:vegan", "") == "no"` — run the rules, finalize and
append the feature.  Returns the optional feature (`none` = nothing
appended), the updated `lat`/`lon` variable state, and the probed URLs
(no `is_url_ok` call happens in the gated-out branch). -/
def checkElement (ctx : Ctx) (today : Int) (url_data : UrlData)
    (st : VarState) (e : OsmElement) :
    Except CheckError (Option Feature × VarState × List String) :=
  match resolveCoords st e with
  | .error er => .error er
  | .ok st' =>
    match readVar st'.2 with
    | .error er => .error er
    | .ok lonv =>
      match readVar st'.1 with
      | .error er => .error er
      | .ok latv =>
        if ((e.tags.lookup "diet:vegan").getD "") != "no" then
          let (w, probes) := buildWorkProps ctx today url_data e
          .ok (some ⟨(lonv, latv), finalizeProps w⟩, st', probes)
        else
          .ok (none, st', [])

/-- The loop of `check_data` over `data["elements"]`, threading the leaked
`lat`/`lon` locals, collecting appended features and probed URLs in order. -/
def checkLoop (ctx : Ctx) (today : Int) (url_data : UrlData) :
    List OsmElement → VarState → Except CheckError (List Feature × List String)
  | [], _ => .ok ([], [])
  | e :: rest, st =>
    match checkElement ctx today url_data st e with
    | .error er => .error er
    | .ok (f?, st', pr) =>
      match checkLoop ctx today url_data rest st' with
      | .error er => .error er
      | .ok (fs, prs) =>
        .ok ((match f? with | some f => f :: fs | none => fs), pr ++ prs)

/-- `check_data(data)`: process all elements starting with both locals
unbound; the result is the `features` list (each one's `properties` and
`geometry`) plus the probe log. -/
def check_data (ctx : Ctx) (today : Int) (url_data : UrlData)
    (elements : List OsmElement) : Except CheckError (List Feature × List String) :=
  checkLoop ctx today url_data elements (none, none)

/-- `main()`: prune the cache, run `check_data` against the pruned cache,
and rewrite the cache file.  Since `is_url_ok` never stores new results,
the rewritten cache is exactly the pruned input cache.  Returns the
features, the probe log, and the cache as rewritten at run end. -/
def runMain (ctx : Ctx) (today : Int) (url_data : UrlData)
    (elements : List OsmElement) :
    Except CheckError (List Feature × List String × UrlData) :=
  let pruned := pruneCache today url_data
  match check_data ctx today pruned elements with
  | .error er => .error er
  | .ok (fs, prs) => .ok (fs, prs, pruned)

/-! ## Concrete fixtures for counterexamples and witnesses -/

/-- A run context whose network answers every probe with HTTP 200 and whose
email validator accepts every address. -/
def ctx200 : Ctx := { net := fun _ => .response 200, emailValid := fun _ => none }

/-- A node whose diet classification is exactly `"no"`. -/
def dietNoElem : OsmElement :=
  { id := 1, osmType := "node", lat := some 1, lon := some 2,
    tags := [("name", "X"), ("diet:vegan", "no")] }

/-- A vegan node carrying one syntactically valid website URL. -/
def websiteElem : OsmElement :=
  { id := 2, osmType := "node", lat := some 1, lon := some 2,
    tags := [("name", "A"), ("diet:vegan", "only"), ("website", "https://example.com/")] }

/-- A way element without a `center` sub-object. -/
def wayNoCenter : OsmElement :=
  { id := 3, osmType := "way", tags := [] }

/-- A node element with neither `lat` nor `lon`. -/
def noCoordNode : OsmElement :=
  { id := 7, osmType := "node", tags := [("name", "N"), ("diet:vegan", "only")] }

/-- Tags with both website spellings, where only the plain `website` value
contains `"instagram"` as a substring. -/
def tags8 : List (String × String) :=
  [("contact:website", "https://a.example/"), ("website", "https://www.instagram.com/x")]

/-- A fully tagged clean vegan node (nothing missing, nothing wrong). -/
def cleanElem : OsmElement :=
  { id := 9, osmType := "node", lat := some 3, lon := some 4,
    tags := [("name", "A"), ("diet:vegan", "yes"), ("cuisine", "x"),
             ("addr:street", "s"), ("addr:housenumber", "1"), ("addr:city", "c"),
             ("addr:postcode", "p"), ("opening_hours", "Mo-Fr 10:00-18:00")] }

/-- The report feature `check_data` produces for `cleanElem`. -/
def cleanFeature : Feature :=
  { coordinates := (some 4, some 3),
    props := { id := 9, osmType := "node", name := "A", diet_vegan := some "yes",
               undefined := none, issues := none, issue_number := 0 } }

/-- An element with an unrecognized `type` value. -/
def areaElem : OsmElement :=
  { id := 4, osmType := "area", tags := [("name", "Z"), ("diet:vegan", "only")] }

/-- Length of an optionally-serialized list (`0` when the key is absent). -/
def optLen (o : Option (List String)) : Nat := (o.getD []).length

/-! ## Claim C1 -/

/-- Claim C1 counterexample: for an element whose diet classification is
exactly `"no"`, NO Validation Report is produced at all — the `features`
list of the run is empty, refuting "a Validation Report is still produced
for that element, containing its name, geometry, and diet fields". -/
theorem C1_counterexample :
    check_data ctx200 0 [] [dietNoElem] = .ok ([], []) := rfl

/-- Claim C1 (amended): if the diet classification resolved to exactly
`"no"`, the engine skips every remaining rule — no cuisine/address/contact/
opening-hours finding and no URL probe occurs — but additionally the
element is dropped entirely: no Validation Report is appended to the
output for it (the append happens inside the gated block). -/
theorem C1_diet_no_skips_rules_and_omits_report (ctx : Ctx) (today : Int)
    (url_data : UrlData) (st : VarState) (e : OsmElement)
    (hdiet : e.tags.lookup "diet:vegan" = some "no")
    (r : Option Feature × VarState × List String)
    (hr : checkElement ctx today url_data st e = .ok r) :
    r.1 = none ∧ r.2.2 = [] := by
  unfold checkElement at hr
  split at hr
  · exact absurd hr (by simp)
  split at hr
  · exact absurd hr (by simp)
  split at hr
  · exact absurd hr (by simp)
  rw [hdiet] at hr
  simp only [Option.getD_some, bne_self_eq_false, Bool.false_eq_true, if_false] at hr
  injection hr with h
  subst h
  exact ⟨rfl, rfl⟩

/-- Claim C1 witness: the amended theorem applied to `dietNoElem`. -/
theorem C1_witness :
    (dietNoElem.tags.lookup "diet:vegan" = some "no") ∧
    ((none : Option Feature) = none ∧ ([] : List String) = []) :=
  ⟨rfl, C1_diet_no_skips_rules_and_omits_report ctx200 0 [] (none, none) dietNoElem rfl
      (none, (some (some 1), some (some 2)), []) rfl⟩

/-! ## Claim C2 -/

/-- Claim C2 (code bug): `is_url_ok` never executes a store
`url_data[url] = result`, so after a cache-miss check the cache still
contains no entry for the URL.  Concretely: a run over `websiteElem` with
an empty cache probes `https://example.com/` (a miss), yet the cache
rewritten at run end is still empty — the spec's "Store the new entry
keyed by `url` ... regardless of outcome" has no counterpart in the code. -/
theorem C2_cache_never_gains_entries :
    ∃ fs, runMain ctx200 0 [] [websiteElem] =
      .ok (fs, ["https://example.com/"], []) :=
  ⟨_, rfl⟩

/-! ## Claim C3 -/

/-- Claim C3 (code bug): running the engine a second time, seeded with the
cache the first run wrote, re-probes the very URL the first run already
probed (the probe log of the second run again contains it), because the
first run's result was never stored.  The serialized features do coincide
across the two runs — only the "zero additional network probes" half of
the claim fails. -/
theorem C3_second_run_reprobes :
    ∃ fs c1, runMain ctx200 0 [] [websiteElem] =
        .ok (fs, ["https://example.com/"], c1) ∧
      runMain ctx200 0 c1 [websiteElem] =
        .ok (fs, ["https://example.com/"], c1) :=
  ⟨_, [], rfl, rfl⟩

/-! ## Claim C5 -/

/-- Claim C5: status-code classification of a fresh probe of a
syntactically valid URL: any status below 400 yields `(true, "OK")`;
403 and 429 yield `true` with the corresponding "Can't do full check"
detail; any other status of 400 or above yields
`(false, "HTTP response code <code>")`; in particular 404. -/
theorem C5_status_code_classification (today : Int) (url_data : UrlData)
    (net : String → ProbeOutcome) (url : String) (status : Nat)
    (hmiss : url_data.lookup url = none)
    (hfmt : is_url_format_valid url = true)
    (hnet : net url = .response status) :
    (status < 400 →
      is_url_ok today url_data net url =
        ({ date := today, isOk := true, text := "OK" }, [url])) ∧
    (status = 403 →
      is_url_ok today url_data net url =
        ({ date := today, isOk := true,
           text := "Can't do full check: HTTP response: Forbidden" }, [url])) ∧
    (status = 429 →
      is_url_ok today url_data net url =
        ({ date := today, isOk := true,
           text := "Can't do full check: HTTP response: Too Many Requests" }, [url])) ∧
    (400 ≤ status → status ≠ 403 → status ≠ 429 →
      is_url_ok today url_data net url =
        ({ date := today, isOk := false,
           text := "HTTP response code " ++ toString status }, [url])) ∧
    (status = 404 →
      is_url_ok today url_data net url =
        ({ date := today, isOk := false, text := "HTTP response code 404" }, [url])) := by
  simp only [is_url_ok, hmiss, hfmt, hnet, if_true]
  refine ⟨fun h => by simp [h], fun h => by subst h; rfl, fun h => by subst h; rfl,
    fun h400 h403 h429 => ?_, fun h => by subst h; rfl⟩
  have hlt : ¬ status < 400 := by omega
  simp [hlt, beq_iff_eq, h403, h429]

/-- Claim C5 witness: the classification applied to a 404 answer for
`https://example.com/` on an empty cache. -/
theorem C5_witness :
    is_url_ok 0 [] (fun _ => .response 404) "https://example.com/" =
      ({ date := 0, isOk := false, text := "HTTP response code 404" },
       ["https://example.com/"]) :=
  (C5_status_code_classification 0 [] (fun _ => .response 404)
    "https://example.com/" 404 rfl rfl rfl).2.2.2.2 rfl

/-! ## Claim C6 -/

/-- Claim C6: a URL that fails the syntactic well-formedness check and is
not in the cache never triggers a network call (the probe log is empty)
and always yields `(false, "No valid URL format")`. -/
theorem C6_invalid_format_no_probe (today : Int) (url_data : UrlData)
    (net : String → ProbeOutcome) (url : String)
    (hmiss : url_data.lookup url = none)
    (hfmt : is_url_format_valid url = false) :
    is_url_ok today url_data net url =
      ({ date := today, isOk := false, text := "No valid URL format" }, []) := by
  simp [is_url_ok, hmiss, hfmt]

/-- Claim C6 witness: the theorem applied to the spec's example
`"not a url"` on an empty cache. -/
theorem C6_witness :
    is_url_ok 0 [] (fun _ => .response 200) "not a url" =
      ({ date := 0, isOk := false, text := "No valid URL format" }, []) :=
  C6_invalid_format_no_probe 0 [] (fun _ => .response 200) "not a url" rfl rfl

/-! ## Claim C4 -/

/-- Claim C4 counterexample: a node element with neither `lat` nor `lon`
(coordinates unresolvable) does NOT crash the run — a full report is
produced for it, with `None` coordinates, refuting "validation raises a
fatal error that crashes the whole run, and no partial report is produced". -/
theorem C4_counterexample :
    ∃ f, check_data ctx200 0 [] [noCoordNode] = .ok ([f], []) ∧
      f.coordinates = (none, none) :=
  ⟨_, rfl, rfl⟩

/-- Claim C4 (amended): only the way/relation half of the claim holds — a
way or relation element without a `center` object raises `AttributeError`
(`None.get(...)`), fatal for the run, with no report for that element.  A
node element missing `lat`/`lon` raises nothing: `.get(..., None)` yields
`None`, and a report with `[None, None]` coordinates is produced whenever
the element is not gated out. -/
theorem C4_amended_coordinate_resolution :
    (∀ (ctx : Ctx) (today : Int) (url_data : UrlData) (st : VarState) (e : OsmElement),
      (e.osmType = "way" ∨ e.osmType = "relation") → e.center = none →
      checkElement ctx today url_data st e = .error .attributeError) ∧
    (∀ (ctx : Ctx) (today : Int) (url_data : UrlData) (st : VarState) (e : OsmElement),
      e.osmType = "node" → e.lat = none → e.lon = none →
      ∃ f st' pr, checkElement ctx today url_data st e = .ok (f, st', pr) ∧
        ∀ g, f = some g → g.coordinates = (none, none)) := by
  constructor
  · intro ctx today url_data st e hty hc
    rcases hty with h | h <;>
      simp [checkElement, resolveCoords, h, hc]
  · intro ctx today url_data st e hty hlat hlon
    by_cases hg : ((e.tags.lookup "diet:vegan").getD "") != "no"
    · refine ⟨some ⟨(none, none), finalizeProps (buildWorkProps ctx today url_data e).1⟩,
        (some none, some none), (buildWorkProps ctx today url_data e).2, ?_, ?_⟩
      · simp [checkElement, resolveCoords, hty, hlat, hlon, readVar, hg]
      · intro g hgeq
        injection hgeq with h
        subst h
        rfl
    · refine ⟨none, (some none, some none), [], ?_, ?_⟩
      · simp [checkElement, resolveCoords, hty, hlat, hlon, readVar, hg]
      · intro g hgeq
        cases hgeq

/-- Claim C4 witness: the amended theorem applied to a way without `center`
(crash) and to a node without coordinates (no crash, `None` geometry). -/
theorem C4_witness :
    checkElement ctx200 0 [] (none, none) wayNoCenter = .error .attributeError ∧
    (∃ f st' pr, checkElement ctx200 0 [] (none, none) noCoordNode = .ok (f, st', pr) ∧
      ∀ g, f = some g → g.coordinates = (none, none)) :=
  ⟨C4_amended_coordinate_resolution.1 ctx200 0 [] (none, none) wayNoCenter (Or.inl rfl) rfl,
   C4_amended_coordinate_resolution.2 ctx200 0 [] (none, none) noCoordNode rfl rfl rfl⟩

/-! ## Claim C7 -/

/-- Claim C7: pruning at run start.  Entries strictly older than 28 days
are removed from the cache (first conjunct), entries exactly 28 days old or
newer are retained (second), any URL all of whose entries are stale is
absent from every lookup during the run (third, lookups go against the
pruned cache), and the cache file rewritten at run end is exactly the
pruned cache (fourth). -/
theorem C7_prune_retention :
    (∀ (today : Int) (url_data : UrlData) (url : String) (e : CacheEntry),
      (url, e) ∈ pruneCache today url_data → today - e.date ≤ 28) ∧
    (∀ (today : Int) (url_data : UrlData) (url : String) (e : CacheEntry),
      (url, e) ∈ url_data → today - e.date ≤ 28 → (url, e) ∈ pruneCache today url_data) ∧
    (∀ (today : Int) (url_data : UrlData) (url : String),
      (∀ e, (url, e) ∈ url_data → today - e.date > 28) →
      (pruneCache today url_data).lookup url = none) ∧
    (∀ (ctx : Ctx) (today : Int) (url_data : UrlData) (elements : List OsmElement)
        (fs : List Feature) (prs : List String) (c : UrlData),
      runMain ctx today url_data elements = .ok (fs, prs, c) →
      c = pruneCache today url_data) := by
  refine ⟨?_, ?_, ?_, ?_⟩
  · intro today url_data url e hmem
    have h := (List.mem_filter.mp hmem).2
    simp at h
    omega
  · intro today url_data url e hmem hle
    refine List.mem_filter.mpr ⟨hmem, ?_⟩
    simp
    omega
  · intro today url_data url hall
    induction url_data with
    | nil => rfl
    | cons p t ih =>
      obtain ⟨k, v⟩ := p
      have ihr := ih (fun e he => hall e (List.mem_cons_of_mem _ he))
      by_cases hk : url == k
      · have hkeq : url = k := by simpa using hk
        subst hkeq
        have hv := hall v (List.mem_cons_self _ _)
        have hdrop : (!decide (today - v.date > 28)) = false := by simp; omega
        simpa [pruneCache, List.filter_cons, hdrop] using ihr
      · by_cases hdel : today - v.date > 28
        · have hdrop : (!decide (today - v.date > 28)) = false := by simp; omega
          simpa [pruneCache, List.filter_cons, hdrop] using ihr
        · have hkeep : (!decide (today - v.date > 28)) = true := by simp; omega
          simp only [pruneCache, List.filter_cons, hkeep, if_true]
          simp only [List.lookup, hk]
          simpa [pruneCache] using ihr
  · intro ctx today url_data elements fs prs c hr
    simp only [runMain] at hr
    split at hr
    · exact absurd hr (by simp)
    · injection hr with h
      have := congrArg (fun t => t.2.2) h
      simpa using this.symm

/-- Claim C7 witness: the pruning theorem applied to concrete caches — an
entry exactly 28 days old survives and bounds its age, a 30-day-old entry
is invisible to lookup, and an empty run rewrites exactly the pruned cache. -/
theorem C7_witness :
    ((28 : Int) - 0 ≤ 28) ∧
    ("u", (⟨0, true, "t"⟩ : CacheEntry)) ∈
      pruneCache 28 [("u", (⟨0, true, "t"⟩ : CacheEntry))] ∧
    (pruneCache 0 [("v", (⟨-30, true, "t"⟩ : CacheEntry))]).lookup "v" = none ∧
    ([] : UrlData) = pruneCache 0 [("v", (⟨-30, true, "t"⟩ : CacheEntry))] :=
  ⟨C7_prune_retention.1 28 [("u", ⟨0, true, "t"⟩)] "u" ⟨0, true, "t"⟩ (by decide),
   C7_prune_retention.2.1 28 [("u", ⟨0, true, "t"⟩)] "u" ⟨0, true, "t"⟩
     (by decide) (by decide),
   C7_prune_retention.2.2.1 0 [("v", ⟨-30, true, "t"⟩)] "v"
     (by intro e he; simp at he; subst he; decide),
   C7_prune_retention.2.2.2 ctx200 0 [("v", ⟨-30, true, "t"⟩)] [] [] [] [] rfl⟩

/-! ## Claim C8 -/

/-- Claim C8 counterexample: with `contact:website = "https://a.example/"`
(no social substring) and `website = "https://www.instagram.com/x"`, both
URLs reachable, the instagram migration suggestion IS emitted (the
substring check inspects the `website` value, which overwrote the
`contact:website` one — the claim's precedence is reversed), and BOTH URLs
are probed, not just a single resolved one. -/
theorem C8_counterexample :
    websiteRule 0 [] (fun _ => .response 200) tags8 =
      (["'instagram' URI as website -> change to 'contact:instagram'",
        "'website' and 'contact:website' defined -> remove one"],
       ["https://a.example/", "https://www.instagram.com/x"]) := rfl

/-- Helper: the website rule written as one explicit concatenation, with
each segment phrased through `is_url_ok` and `resolvedWebsite`. -/
theorem websiteRule_eq (today : Int) (url_data : UrlData)
    (net : String → ProbeOutcome) (tags : List (String × String)) :
    websiteRule today url_data net tags =
      ((match tags.lookup "contact:website" with
        | some u =>
          if (is_url_ok today url_data net u).1.isOk == false then
            ["'contact:website' URI invalid"] else []
        | none => []) ++
       (match tags.lookup "website" with
        | some u =>
          if (is_url_ok today url_data net u).1.isOk == false then
            ["'website' URI invalid"] else []
        | none => []) ++
       (if strContains (resolvedWebsite tags) "facebook" then
         ["'facebook' URI as website -> change to 'contact:facebook'"] else []) ++
       (if strContains (resolvedWebsite tags) "instagram" then
         ["'instagram' URI as website -> change to 'contact:instagram'"] else []) ++
       (if (tags.lookup "contact:website").isSome && (tags.lookup "website").isSome then
         ["'website' and 'contact:website' defined -> remove one"] else []),
       (match tags.lookup "contact:website" with
        | some u => (is_url_ok today url_data net u).2
        | none => []) ++
       (match tags.lookup "website" with
        | some u => (is_url_ok today url_data net u).2
        | none => [])) := by
  unfold websiteRule
  rcases h1 : tags.lookup "contact:website" with _ | u1 <;>
    rcases h2 : tags.lookup "website" with _ | u2 <;>
      simp [h1, h2, List.append_assoc]

/-- Helper: membership in a conditional singleton list. -/
theorem mem_if_singleton {c : Prop} [Decidable c] (x y : String) :
    x ∈ (if c then [y] else ([] : List String)) ↔ c ∧ x = y := by
  split <;> simp_all

/-- Claim C8 (amended): the URL inspected by the facebook/instagram
substring check is the `website` tag when present, else `contact:website`
(the reverse of the claimed precedence); each of `contact:website` and
`website`, when present, is independently run through the URL health
cache, an unreachable verdict appending the issue naming that field; the
migration suggestion is emitted exactly when the `resolvedWebsite` value
contains the social substring; and the probes are exactly those of the two
health checks. -/
theorem C8_amended_website_rule (today : Int) (url_data : UrlData)
    (net : String → ProbeOutcome) (tags : List (String × String)) :
    (("'facebook' URI as website -> change to 'contact:facebook'" ∈
        (websiteRule today url_data net tags).1) ↔
      strContains (resolvedWebsite tags) "facebook" = true) ∧
    (("'instagram' URI as website -> change to 'contact:instagram'" ∈
        (websiteRule today url_data net tags).1) ↔
      strContains (resolvedWebsite tags) "instagram" = true) ∧
    (∀ u, tags.lookup "contact:website" = some u →
      (is_url_ok today url_data net u).1.isOk = false →
      "'contact:website' URI invalid" ∈ (websiteRule today url_data net tags).1) ∧
    (∀ u, tags.lookup "website" = some u →
      (is_url_ok today url_data net u).1.isOk = false →
      "'website' URI invalid" ∈ (websiteRule today url_data net tags).1) ∧
    ((websiteRule today url_data net tags).2 =
      (match tags.lookup "contact:website" with
       | some u => (is_url_ok today url_data net u).2
       | none => []) ++
      (match tags.lookup "website" with
       | some u => (is_url_ok today url_data net u).2
       | none => [])) := by
  rw [websiteRule_eq]
  refine ⟨?_, ?_, ?_, ?_, rfl⟩
  · rcases h1 : tags.lookup "contact:website" with _ | u1 <;>
      rcases h2 : tags.lookup "website" with _ | u2 <;>
        simp [h1, h2, mem_if_singleton]
  · rcases h1 : tags.lookup "contact:website" with _ | u1 <;>
      rcases h2 : tags.lookup "website" with _ | u2 <;>
        simp [h1, h2, mem_if_singleton]
  · intro u hu hok
    simp [hu, hok, mem_if_singleton]
  · intro u hu hok
    simp [hu, hok, mem_if_singleton]

/-- Claim C8 witness: the amended characterization applied to `tags8`
yields the instagram suggestion (the resolved value is the `website` tag). -/
theorem C8_witness :
    "'instagram' URI as website -> change to 'contact:instagram'" ∈
      (websiteRule 0 [] (fun _ => .response 200) tags8).1 :=
  (C8_amended_website_rule 0 [] (fun _ => .response 200) tags8).2.1.mpr rfl

/-! ## Claim C9 -/

/-- Helper: the finalize step satisfies the serialized-report invariant. -/
theorem finalizeProps_spec (w : WorkProps) :
    (finalizeProps w).issue_number =
      optLen (finalizeProps w).issues + optLen (finalizeProps w).undefined ∧
    (finalizeProps w).issues ≠ some [] ∧
    (finalizeProps w).undefined ≠ some [] ∧
    ((finalizeProps w).issue_number = 0 ↔
      ((finalizeProps w).issues = none ∧ (finalizeProps w).undefined = none)) := by
  unfold finalizeProps optLen
  by_cases hi : w.issues = [] <;> by_cases hu : w.undefined = [] <;>
    simp [hi, hu, List.length_eq_zero]

/-- Helper: every feature a loop iteration appends carries finalized
properties. -/
theorem checkElement_feature_props (ctx : Ctx) (today : Int) (url_data : UrlData)
    (st : VarState) (e : OsmElement) (r : Option Feature × VarState × List String)
    (hr : checkElement ctx today url_data st e = .ok r) (g : Feature)
    (hg : r.1 = some g) :
    g.props = finalizeProps (buildWorkProps ctx today url_data e).1 := by
  unfold checkElement at hr
  split at hr
  · exact absurd hr (by simp)
  split at hr
  · exact absurd hr (by simp)
  split at hr
  · exact absurd hr (by simp)
  split at hr
  · rcases hb : buildWorkProps ctx today url_data e with ⟨w, probes⟩
    rw [hb] at hr
    injection hr with h
    subst h
    simp at hg
    subst hg
    rfl
  · injection hr with h
    subst h
    cases hg

/-- Helper: every feature in the output of the element loop carries
finalized properties. -/
theorem checkLoop_feature_props (ctx : Ctx) (today : Int) (url_data : UrlData) :
    ∀ (els : List OsmElement) (st : VarState) (fs : List Feature) (prs : List String),
      checkLoop ctx today url_data els st = .ok (fs, prs) →
      ∀ f ∈ fs, ∃ w, f.props = finalizeProps w := by
  intro els
  induction els with
  | nil =>
    intro st fs prs h f hf
    unfold checkLoop at h
    injection h with h'
    obtain ⟨h1, -⟩ := Prod.mk.inj h'
    rw [← h1] at hf
    cases hf
  | cons e rest ih =>
    intro st fs prs h f hf
    unfold checkLoop at h
    split at h
    · exact absurd h (by simp)
    next f? st' pr heq =>
      split at h
      · exact absurd h (by simp)
      next fs0 prs0 heq2 =>
        injection h with h'
        obtain ⟨h1, -⟩ := Prod.mk.inj h'
        rcases f? with _ | g
        · rw [← h1] at hf
          exact ih st' fs0 prs0 heq2 f hf
        · rw [← h1] at hf
          rcases List.mem_cons.mp hf with hfg | hfm
          · subst hfg
            exact ⟨(buildWorkProps ctx today url_data e).1,
              checkElement_feature_props ctx today url_data st e _ heq f rfl⟩
          · exact ih st' fs0 prs0 heq2 f hfm

/-- Claim C9: for every serialized report, `issue_number` equals the length
of the serialized `issues` list plus that of the serialized `undefined`
list, each list is present only when non-empty, and `issue_number = 0`
exactly when both keys are absent. -/
theorem C9_issue_number_invariant (ctx : Ctx) (today : Int) (url_data : UrlData)
    (elements : List OsmElement) (fs : List Feature) (prs : List String)
    (hrun : check_data ctx today url_data elements = .ok (fs, prs))
    (f : Feature) (hf : f ∈ fs) :
    f.props.issue_number = optLen f.props.issues + optLen f.props.undefined ∧
    f.props.issues ≠ some [] ∧
    f.props.undefined ≠ some [] ∧
    (f.props.issue_number = 0 ↔
      (f.props.issues = none ∧ f.props.undefined = none)) := by
  obtain ⟨w, hw⟩ :=
    checkLoop_feature_props ctx today url_data elements (none, none) fs prs hrun f hf
  rw [hw]
  exact finalizeProps_spec w

/-- Claim C9 witness: the invariant applied to the report of `cleanElem`
(a clean record: both keys absent, `issue_number = 0`). -/
theorem C9_witness :
    cleanFeature.props.issue_number =
      optLen cleanFeature.props.issues + optLen cleanFeature.props.undefined ∧
    cleanFeature.props.issues ≠ some [] ∧
    cleanFeature.props.undefined ≠ some [] ∧
    (cleanFeature.props.issue_number = 0 ↔
      (cleanFeature.props.issues = none ∧ cleanFeature.props.undefined = none)) :=
  C9_issue_number_invariant ctx200 0 [] [cleanElem] [cleanFeature] [] rfl
    cleanFeature (List.mem_singleton_self _)

/-! ## Claim C10 -/

/-- Claim C10: only `"node"`, `"way"` and `"relation"` assign the `lat`/
`lon` locals.  For an element of any other type as the first element of a
run, building the geometry reads an unbound local and the whole run fails
with `NameError`; when the locals are already bound from an earlier
element, the produced feature silently reuses those stale coordinates and
the variable state is left unchanged. -/
theorem C10_unrecognized_type :
    (∀ (ctx : Ctx) (today : Int) (url_data : UrlData) (e : OsmElement)
        (rest : List OsmElement),
      e.osmType ≠ "node" → e.osmType ≠ "way" → e.osmType ≠ "relation" →
      check_data ctx today url_data (e :: rest) = .error .nameError) ∧
    (∀ (ctx : Ctx) (today : Int) (url_data : UrlData) (e : OsmElement)
        (lv lo : Option Int),
      e.osmType ≠ "node" → e.osmType ≠ "way" → e.osmType ≠ "relation" →
      ∃ f pr, checkElement ctx today url_data (some lv, some lo) e =
          .ok (f, (some lv, some lo), pr) ∧
        ∀ g, f = some g → g.coordinates = (lo, lv)) := by
  have hcoords : ∀ (st : VarState) (e : OsmElement),
      e.osmType ≠ "node" → e.osmType ≠ "way" → e.osmType ≠ "relation" →
      resolveCoords st e = .ok st := by
    intro st e h1 h2 h3
    simp [resolveCoords, beq_iff_eq, h1, h2, h3]
  constructor
  · intro ctx today url_data e rest h1 h2 h3
    have he : checkElement ctx today url_data (none, none) e = .error .nameError := by
      simp [checkElement, hcoords _ e h1 h2 h3, readVar]
    simp [check_data, checkLoop, he]
  · intro ctx today url_data e lv lo h1 h2 h3
    by_cases hg : ((e.tags.lookup "diet:vegan").getD "") != "no"
    · refine ⟨some ⟨(lo, lv), finalizeProps (buildWorkProps ctx today url_data e).1⟩,
        (buildWorkProps ctx today url_data e).2, ?_, ?_⟩
      · simp [checkElement, hcoords _ e h1 h2 h3, readVar, hg]
      · intro g hgeq
        injection hgeq with h
        subst h
        rfl
    · refine ⟨none, [], ?_, ?_⟩
      · simp [checkElement, hcoords _ e h1 h2 h3, readVar, hg]
      · intro g hgeq
        cases hgeq

/-- Claim C10 witness: the theorem applied to an element of type `"area"`:
as first element the run crashes with `NameError`; with locals bound to the
previous element's coordinates, those stale values become its geometry. -/
theorem C10_witness :
    check_data ctx200 0 [] [areaElem] = .error .nameError ∧
    (∃ f pr, checkElement ctx200 0 [] (some (some 9), some (some 8)) areaElem =
        .ok (f, (some (some 9), some (some 8)), pr) ∧
      ∀ g, f = some g → g.coordinates = (some 8, some 9)) :=
  ⟨C10_unrecognized_type.1 ctx200 0 [] areaElem []
      (by decide) (by decide) (by decide),
    C10_unrecognized_type.2 ctx200 0 [] areaElem (some 9) (some 8)
      (by decide) (by decide) (by decide)⟩
